import Mathlib

/-!
Shallow embedding of the timeros scheduling/execution core.

The definitions below are translated from the repository source:
- `app/core/models.py` (Task, TaskExecution rows)
- `app/core/executor.py` (TaskExecutor.execute_task)
- `app/core/scheduler.py` (TaskScheduler.add_task / remove_task / load_tasks_from_db)
- `app/services/task_service.py` (TaskService.create_task / delete_task)
- `app/core/task_parser.py` (TaskParser.parse / _validate_parse_result / _preprocess_description)
- `app/agents/task_agent.py` (TaskAgent.execute)

External collaborators (the LLM, the per-type handlers' tool calls, the ISO
datetime parser of the standard library, and APScheduler's crontab validator)
are modelled as explicit function parameters (oracles), so every theorem
quantifies over their behavior.  Timestamps are modelled as `Int`.
-/

namespace TimerOS

/-- Task row, from `app/core/models.py` class `Task`.  `params` is an opaque
JSON payload, modelled as an association list of strings. -/
structure Task where
  id : Nat
  name : String
  description : String
  task_type : String
  schedule : Int
  cron_expression : Option String
  is_recurring : Bool
  status : String
  params : List (String × String)
  deleted_time : Option Int
  deriving Repr, DecidableEq

/-- TaskExecution row, from `app/core/models.py` class `TaskExecution`. -/
structure TaskExecution where
  task_id : Nat
  status : String
  result : Option String
  error_message : Option String
  execution_time : Int
  duration_seconds : Option Int
  deriving Repr, DecidableEq

/-- The portion of the database state the executor touches. -/
structure ExecDB where
  tasks : List Task
  executions : List TaskExecution
  deriving Repr, DecidableEq

/-- SQLAlchemy `query.filter(...).first()` followed by mutating the returned
row: update the first list element satisfying `p`. -/
def updateFirst (p : Task → Bool) (f : Task → Task) : List Task → List Task
  | [] => []
  | t :: ts => if p t then f t :: ts else t :: updateFirst p f ts

/-- The closed set of task types dispatched by `TaskExecutor.execute_task`
(`executor.py` lines 114-121). -/
def knownTaskType (ty : String) : Bool :=
  ty == "research_task" || ty == "analysis_task" || ty == "report_task"

/-- The type dispatch of `executor.py` lines 114-121: a known type runs its
per-type handler (whose tool/model effects are the oracle `handler`);
an unknown type raises `TaskExecutionError("未知的任务类型: ...")`.
A handler `.error e` models any exception raised inside the handler
(tool call, model call); `.ok r` models its returned result, already
serialized as in `json.dumps(result)`. -/
def dispatchTaskType (handler : Task → Except String String) (t : Task) :
    Except String String :=
  if knownTaskType t.task_type then handler t
  else Except.error ("未知的任务类型: " ++ t.task_type)

/-- The dict returned by `execute_task` on success (`executor.py` 146-150). -/
structure ExecOutcome where
  status : String
  result : String
  duration_seconds : Int
  deriving Repr, DecidableEq

/-- Message of the `AttributeError` that Python raises when the except
handler of `execute_task` evaluates `task.status = "failed"` while `task`
is bound to `None` (the quote characters of the original Python message
are omitted here). -/
def attributeErrorNoneStatus : String :=
  "AttributeError: NoneType object has no attribute status"

/-- Embedding of `TaskExecutor.execute_task` (`executor.py` lines 64-173).
`now` models `datetime.utcnow()` at execution-record creation, `tStart` the
`time.time()` taken just before dispatch (line 111) and `tEnd` the
`time.time()` when the run finishes (line 124 resp. 165).

Control flow of the source:
- the task is looked up by id (line 88): `task = ....first()` binds `task`
  even when no row matches (to `None`), and line 90 then raises
  `TaskExecutionError("任务不存在: ...")`.  In the generic `except`,
  `"execution" in locals()` is false (no execution row is created or
  persisted), but `"task" in locals()` is **true** with `task = None`, so
  line 170's `task.status = "failed"` raises
  `AttributeError: ... NoneType ... has no attribute ... status ...`
  before any commit; that `AttributeError` propagates to the caller and
  the `TaskExecutionError("任务执行失败: ...")` re-raise of line 173 is
  never reached.  The database is untouched;
- for a found task, the task row is set to `running`, an execution row
  with status `running` is created, and the per-type dispatch runs;
- on success the execution row becomes `completed` with a result and a
  duration, and the task becomes `pending` (recurring) or `completed`;
- on any dispatch exception the execution row becomes `failed` with the
  error message and a duration, the task becomes `failed`, and
  `TaskExecutionError("任务执行失败: " + str(e))` is raised. -/
def execute_task (handler : Task → Except String String)
    (now tStart tEnd : Int) (db : ExecDB) (task_id : Nat) :
    ExecDB × Except String ExecOutcome :=
  match db.tasks.find? (fun t => t.id == task_id) with
  | none =>
      (db, Except.error attributeErrorNoneStatus)
  | some task =>
      let tasksRunning :=
        updateFirst (fun t => t.id == task_id) (fun t => { t with status := "running" })
          db.tasks
      let execution : TaskExecution :=
        { task_id := task_id, status := "running", result := none,
          error_message := none, execution_time := now, duration_seconds := none }
      match dispatchTaskType handler task with
      | Except.ok result =>
          let execDone :=
            { execution with
              status := "completed", result := some result,
              duration_seconds := some (tEnd - tStart) }
          let newStatus := if task.is_recurring then "pending" else "completed"
          ({ tasks :=
               updateFirst (fun t => t.id == task_id) (fun t => { t with status := newStatus })
                 tasksRunning,
             executions := db.executions ++ [execDone] },
           Except.ok
             { status := "completed", result := result,
               duration_seconds := tEnd - tStart })
      | Except.error e =>
          let execFailed :=
            { execution with
              status := "failed", error_message := some e,
              duration_seconds := some (tEnd - tStart) }
          ({ tasks :=
               updateFirst (fun t => t.id == task_id) (fun t => { t with status := "failed" })
                 tasksRunning,
             executions := db.executions ++ [execFailed] },
           Except.error ("任务执行失败: " ++ e))

/-! ## Scheduler (`app/core/scheduler.py`) -/

/-- APScheduler trigger: `CronTrigger.from_crontab(expr)` or
`DateTrigger(run_date=schedule)`. -/
inductive Trigger
  | cron (expr : String)
  | date (runDate : Int)
  deriving Repr, DecidableEq

/-- One registered APScheduler job. -/
structure Job where
  job_id : String
  task_id : Nat
  trigger : Trigger
  deriving Repr, DecidableEq

/-- The scheduler's active job set. -/
structure Sched where
  jobs : List Job
  deriving Repr, DecidableEq

/-- APScheduler job id, `f"task_{task_id}"`, as used throughout `scheduler.py`. -/
def jobIdOf (task_id : Nat) : String := "task_" ++ toString task_id

/-- Effect of `scheduler.add_job(..., id=job_id, replace_existing=True)`: any existing
job with the same id is replaced. -/
def upsertJob (s : Sched) (j : Job) : Sched :=
  { jobs := s.jobs.filter (fun j' => j'.job_id != j.job_id) ++ [j] }

/-- Whether a job for `task_id` is in the active job set
(`scheduler.get_job(f"task_{task_id}")` is not None). -/
def hasJob (s : Sched) (task_id : Nat) : Bool :=
  s.jobs.any (fun j => j.job_id == jobIdOf task_id)

/-- Embedding of `TaskScheduler.add_task` (`scheduler.py` lines 58-125).
`cronValid` is the oracle for APScheduler's `CronTrigger.from_crontab`
accepting the expression.  The source branches on the Python truthiness of
`is_recurring and cron_expression`, so a recurring task whose cron
expression is `None` or the empty string is registered with a
`DateTrigger` instead; an invalid cron expression raises `SchedulerError`. -/
def add_task (cronValid : String → Bool) (s : Sched) (task_id : Nat)
    (schedule : Int) (cron_expression : Option String) (is_recurring : Bool) :
    Except String (Sched × String) :=
  let job_id := jobIdOf task_id
  match is_recurring, cron_expression with
  | true, some c =>
      if c.isEmpty then
        Except.ok (upsertJob s { job_id := job_id, task_id := task_id, trigger := Trigger.date schedule }, job_id)
      else if cronValid c then
        Except.ok (upsertJob s { job_id := job_id, task_id := task_id, trigger := Trigger.cron c }, job_id)
      else
        Except.error ("添加任务到调度器失败: task_id=" ++ toString task_id)
  | _, _ =>
      Except.ok (upsertJob s { job_id := job_id, task_id := task_id, trigger := Trigger.date schedule }, job_id)

/-- Embedding of `TaskScheduler.remove_task` (`scheduler.py` lines 127-153): removes the
job if present and reports whether one was present. -/
def remove_task (s : Sched) (task_id : Nat) : Sched × Bool :=
  if hasJob s task_id then
    ({ jobs := s.jobs.filter (fun j => j.job_id != jobIdOf task_id) }, true)
  else
    (s, false)

/-- The per-task skip test of `scheduler.py` line 231: a one-shot task whose
schedule is strictly before `datetime.utcnow()` is skipped. -/
def expiredOneShot (now : Int) (t : Task) : Bool :=
  !t.is_recurring && decide (t.schedule < now)

/-- Embedding of `TaskScheduler.load_tasks_from_db` (`scheduler.py` lines 207-262):
queries tasks with `status == "pending"` and `deleted_time IS NULL`, skips
expired one-shot tasks, registers the rest via `add_task` (a per-task
registration failure is logged and skipped by the inner `except`), and
returns the new scheduler state together with `loaded_count`. -/
def load_tasks_from_db (cronValid : String → Bool) (now : Int) (s : Sched)
    (tasks : List Task) : Sched × Nat :=
  let pending := tasks.filter (fun t => t.status == "pending" && t.deleted_time.isNone)
  pending.foldl
    (fun acc t =>
      if expiredOneShot now t then acc
      else
        match add_task cronValid acc.1 t.id t.schedule t.cron_expression t.is_recurring with
        | Except.ok (s', _) => (s', acc.2 + 1)
        | Except.error _ => acc)
    (s, 0)

/-- The trigger `add_task` would register for a stored task. -/
def triggerOf (t : Task) : Trigger :=
  match t.is_recurring, t.cron_expression with
  | true, some c => if c.isEmpty then Trigger.date t.schedule else Trigger.cron c
  | _, _ => Trigger.date t.schedule

/-- Whether `add_task` succeeds for a stored task: only a recurring task with
a non-empty cron expression rejected by the cron parser fails. -/
def addWouldSucceed (cronValid : String → Bool) (t : Task) : Bool :=
  match t.is_recurring, t.cron_expression with
  | true, some c => c.isEmpty || cronValid c
  | _, _ => true

/-- The exact condition under which `load_tasks_from_db` registers a stored
task: pending, not soft-deleted, not an expired one-shot, and its
registration succeeds. -/
def shouldRegister (cronValid : String → Bool) (now : Int) (t : Task) : Bool :=
  (t.status == "pending" && t.deleted_time.isNone) &&
    (!expiredOneShot now t && addWouldSucceed cronValid t)

/-! ## Task service (`app/services/task_service.py`) -/

/-- Embedding of `TaskService.get_task` (`task_service.py` lines 104-117): first task with
the given id that is not soft-deleted. -/
def get_task (tasks : List Task) (task_id : Nat) : Option Task :=
  tasks.find? (fun t => t.id == task_id && t.deleted_time.isNone)

/-- Embedding of `TaskService.delete_task` (`task_service.py` lines 202-226): looks the
task up through `get_task`; if absent returns `false`; otherwise sets
`deleted_time = utcnow()` **and `status = "paused"`**, commits, removes the
job from the scheduler, and returns `true`. -/
def delete_task (now : Int) (tasks : List Task) (s : Sched) (task_id : Nat) :
    List Task × Sched × Bool :=
  match get_task tasks task_id with
  | none => (tasks, s, false)
  | some _ =>
      (updateFirst (fun t => t.id == task_id && t.deleted_time.isNone)
         (fun t => { t with deleted_time := some now, status := "paused" }) tasks,
       (remove_task s task_id).1, true)

/-! ## Task parser (`app/core/task_parser.py`) -/

/-- The dict produced by the LLM in `_parse_with_llm`, with every key
optional (`task_parser.py`); `params` is an opaque JSON object. -/
structure ParseDict where
  name : Option String
  schedule : Option String
  task_type : Option String
  params : Option (List (String × String))
  recurring : Option Bool
  cron_expression : Option String
  deriving Repr, DecidableEq

/-- The closed list of valid task types (`task_parser.py` line 270). -/
def validTaskTypes : List String := ["research_task", "analysis_task", "report_task"]

/-- Embedding of `schedule_str.replace("Z", "+00:00")` before `datetime.fromisoformat`.
Since the pattern is the single character `Z`, the replacement expands each
`Z` of the string to `+00:00`. -/
def fixZ (s : String) : String :=
  String.mk (s.data.foldr
    (fun c acc =>
      if c = 'Z' then '+' :: '0' :: '0' :: ':' :: '0' :: '0' :: acc else c :: acc)
    [])

/-- Embedding of `TaskParser._validate_parse_result` (`task_parser.py` lines 241-290).
`isoParse` is the oracle for `datetime.fromisoformat` (returns the parsed
timestamp, or `none` when the library raises `ValueError`).  Required
fields are checked in order (`schedule`, then `task_type`), the schedule
must parse, an unknown task type is silently replaced by
`"research_task"`, missing `params`/`recurring` default to `{}`/`False`,
and a recurring result without a cron expression only logs a warning. -/
def _validate_parse_result (isoParse : String → Option Int) (r : ParseDict) :
    Except String ParseDict :=
  match r.schedule with
  | none => Except.error "解析结果缺少必要字段: schedule"
  | some sched =>
    match r.task_type with
    | none => Except.error "解析结果缺少必要字段: task_type"
    | some ty =>
      if (isoParse (fixZ sched)).isNone then
        Except.error ("时间格式无效: " ++ sched)
      else
        let ty' := if validTaskTypes.contains ty then ty else "research_task"
        Except.ok
          { r with
            task_type := some ty',
            params := some (r.params.getD []),
            recurring := some (r.recurring.getD false) }

/-- Python `str.strip()`: drop leading and trailing whitespace.  (Written
over the character list so that it evaluates by kernel reduction.) -/
def pyStrip (s : String) : String :=
  String.mk (((s.data.dropWhile Char.isWhitespace).reverse.dropWhile
    Char.isWhitespace).reverse)

/-- Whitespace-run collapsing of `re.sub(r"\s+", " ", cleaned)`: the flag
records whether the previous character was whitespace. -/
def collapseWS : Bool → List Char → List Char
  | _, [] => []
  | prevWS, c :: cs =>
    if c.isWhitespace then
      if prevWS then collapseWS true cs else ' ' :: collapseWS true cs
    else
      c :: collapseWS false cs

/-- The control characters removed by
`re.sub(r"[\x00-\x08\x0b-\x0c\x0e-\x1f\x7f]", "", cleaned)`. -/
def isStrippedCtl (c : Char) : Bool :=
  c.val ≤ 0x08 || (0x0b ≤ c.val && c.val ≤ 0x0c) ||
    (0x0e ≤ c.val && c.val ≤ 0x1f) || c.val == 0x7f

/-- Embedding of `TaskParser._preprocess_description` (`task_parser.py` lines 128-149):
strip, collapse whitespace runs to a single space, drop control chars. -/
def _preprocess_description (description : String) : String :=
  String.mk (((collapseWS false (pyStrip description).data).filter
    (fun c => !isStrippedCtl c)))

/-- Embedding of `TaskParser.parse` (`task_parser.py` lines 53-126), minus the result
cache (the cache only replays dicts previously returned by this same
pipeline).  `llm` is the oracle for `_parse_with_llm` (the extracted JSON
dict, or the message of the `TaskParseError` it raised).  An empty
description raises `ValueError` before the `try` block; every failure
inside the `try` is re-raised as `TaskParseError("无法解析任务描述: ...")`. -/
def parse (isoParse : String → Option Int)
    (llm : String → Except String ParseDict) (description : String) :
    Except String ParseDict :=
  if (pyStrip description).data.isEmpty then
    Except.error "任务描述不能为空"
  else
    match llm (_preprocess_description description) with
    | Except.error e => Except.error ("无法解析任务描述: " ++ e)
    | Except.ok r =>
      match _validate_parse_result isoParse r with
      | Except.error e => Except.error ("无法解析任务描述: " ++ e)
      | Except.ok r' => Except.ok r'

/-- The Task row constructed by `TaskService.create_task`
(`task_service.py` lines 62-94) from a parse result: every field is copied
verbatim from the parsed dict (`cron_expression = parsed.get("cron_expression")`,
`is_recurring = parsed.get("recurring", False)`), the status starts as
`"pending"`, and the schedule string is re-parsed with `fromisoformat`.
`defaultName` models the timestamp-based default name; the database-assigned
primary key is modelled as 0.  Returns `none` when the construction raises
(missing key or unparseable schedule). -/
def createTaskRecord (isoParse : String → Option Int) (defaultName : String)
    (description : String) (p : ParseDict) : Option Task :=
  match p.schedule with
  | none => none
  | some s =>
    match isoParse (fixZ s) with
    | none => none
    | some sched =>
      match p.task_type with
      | none => none
      | some ty =>
        some
          { id := 0, name := p.name.getD defaultName, description := description,
            task_type := ty, schedule := sched,
            cron_expression := p.cron_expression,
            is_recurring := p.recurring.getD false,
            status := "pending", params := p.params.getD [],
            deleted_time := none }

/-! ## Decision loop (`app/agents/task_agent.py`) -/

/-- LangChain message, as far as `TaskAgent.execute` inspects it. -/
inductive AgentMessage
  | system (content : String)
  | human (content : String)
  | ai (content : String)
  | tool (content : String)
  deriving Repr, DecidableEq

/-- The dict returned by `TaskAgent.execute`. -/
structure AgentResult where
  success : Bool
  final_response : Option String
  error : Option String
  message_count : Nat
  deriving Repr, DecidableEq

/-- The initial user message built by `TaskAgent.execute`
(`task_agent.py` lines 180-183). -/
def buildUserMessage (task_description : String) (task_params : Option String) : String :=
  match task_params with
  | none => task_description
  | some p => task_description ++ "\n\n任务参数: " ++ p

/-- Embedding of `last_message.content if isinstance(last_message, AIMessage) else
str(last_message)` (`task_agent.py` lines 202-206). -/
def extractFinalResponse : AgentMessage → String
  | AgentMessage.ai content => content
  | AgentMessage.system content => content
  | AgentMessage.human content => content
  | AgentMessage.tool content => content

/-- Embedding of `TaskAgent.execute` (`task_agent.py` lines 163-219).  `graphRun` is the
oracle for `self.graph.ainvoke`: given the initial message list it returns
the final message history, or the text of whatever exception the graph run
raised (model call or tool dispatch).  Any such exception is caught and
converted into `{"success": False, "error": "任务执行失败: " + str(e)}`;
on success the last message's content becomes `final_response`. -/
def TaskAgent.execute
    (graphRun : List AgentMessage → Except String (List AgentMessage))
    (task_description : String) (task_params : Option String) : AgentResult :=
  let initialMessages := [AgentMessage.human (buildUserMessage task_description task_params)]
  match graphRun initialMessages with
  | Except.ok msgs =>
      match msgs.getLast? with
      | some last =>
          { success := true, final_response := some (extractFinalResponse last),
            error := none, message_count := msgs.length }
      | none =>
          { success := false, final_response := none,
            error := some "任务执行失败: list index out of range", message_count := 0 }
  | Except.error e =>
      { success := false, final_response := none,
        error := some ("任务执行失败: " ++ e), message_count := 0 }

/-! ## Helper lemmas -/

/-- Lookup after `updateFirst`: updating the first match in place makes
`find?` return the updated row, provided the update preserves the
predicate. -/
theorem find?_updateFirst (p : Task → Bool) (f : Task → Task)
    (hf : ∀ t, p (f t) = p t) (l : List Task) (t : Task)
    (h : l.find? p = some t) : (updateFirst p f l).find? p = some (f t) := by
  induction l with
  | nil => simp [List.find?] at h
  | cons x xs ih =>
    by_cases hp : p x
    · rw [List.find?_cons_of_pos _ hp] at h
      cases h
      simp [updateFirst, hp, List.find?_cons_of_pos, hf]
    · rw [List.find?_cons_of_neg _ hp] at h
      simp only [updateFirst, hp, if_neg, Bool.false_eq_true, ite_false]
      rw [List.find?_cons_of_neg _ hp]
      exact ih h

/-- Shared helper: the full effect of `execute_task` when the per-type
dispatch fails. -/
theorem execute_task_error_case
    (handler : Task → Except String String) (now t0 t1 : Int) (db : ExecDB)
    (tid : Nat) (task : Task) (e : String)
    (hfind : db.tasks.find? (fun t => t.id == tid) = some task)
    (herr : dispatchTaskType handler task = Except.error e) :
    (execute_task handler now t0 t1 db tid).1.executions
        = db.executions ++
          [{ task_id := tid, status := "failed", result := none,
             error_message := some e, execution_time := now,
             duration_seconds := some (t1 - t0) }] ∧
    (execute_task handler now t0 t1 db tid).1.tasks.find? (fun t => t.id == tid)
        = some { task with status := "failed" } ∧
    (execute_task handler now t0 t1 db tid).2
        = Except.error ("任务执行失败: " ++ e) := by
  have h1 := find?_updateFirst (fun t => t.id == tid)
    (fun t => { t with status := "running" }) (fun t => rfl) db.tasks task hfind
  have h2 := find?_updateFirst (fun t => t.id == tid)
    (fun t => { t with status := "failed" }) (fun t => rfl) _ _ h1
  simp only [execute_task, hfind, herr]
  exact ⟨trivial, h2, trivial⟩

/-! ## Claim theorems -/

/-- Claim C1: For every run of `execute_task` in which the per-type dispatch
(the per-type handler, one of its tool calls, or the model call) raises
after the Execution record has been created, the Execution record is
persisted with `status = "failed"`, `error_message` set to the failure
detail, and `duration_seconds` set to the elapsed time; the Task's status
is set to `"failed"` regardless of `is_recurring`; and a
`TaskExecutionError` wrapping the root cause is raised to the caller. -/
theorem execute_task_failure_marks_failed
    (handler : Task → Except String String) (now t0 t1 : Int) (db : ExecDB)
    (tid : Nat) (task : Task) (e : String)
    (hfind : db.tasks.find? (fun t => t.id == tid) = some task)
    (herr : dispatchTaskType handler task = Except.error e) :
    (execute_task handler now t0 t1 db tid).1.executions
        = db.executions ++
          [{ task_id := tid, status := "failed", result := none,
             error_message := some e, execution_time := now,
             duration_seconds := some (t1 - t0) }] ∧
    (execute_task handler now t0 t1 db tid).1.tasks.find? (fun t => t.id == tid)
        = some { task with status := "failed" } ∧
    (execute_task handler now t0 t1 db tid).2
        = Except.error ("任务执行失败: " ++ e) :=
  execute_task_error_case handler now t0 t1 db tid task e hfind herr

/-- Witness for C1: a concrete one-row database and a handler that raises. -/
def task1 : Task :=
  { id := 1, name := "研究任务", description := "研究AI新闻", task_type := "research_task",
    schedule := 100, cron_expression := none, is_recurring := true,
    status := "pending", params := [("topic", "AI新闻")], deleted_time := none }

def db1 : ExecDB := { tasks := [task1], executions := [] }

def handlerBoom : Task → Except String String := fun _ => Except.error "boom"

/-- Witness for C1 at a concrete recurring task. -/
theorem execute_task_failure_marks_failed_wit :
    (execute_task handlerBoom 5 10 13 db1 1).1.executions
        = [{ task_id := 1, status := "failed", result := none,
             error_message := some "boom", execution_time := 5,
             duration_seconds := some 3 }] ∧
    (execute_task handlerBoom 5 10 13 db1 1).1.tasks.find? (fun t => t.id == 1)
        = some { task1 with status := "failed" } ∧
    (execute_task handlerBoom 5 10 13 db1 1).2
        = Except.error ("任务执行失败: " ++ "boom") :=
  execute_task_failure_marks_failed handlerBoom 5 10 13 db1 1 task1 "boom"
    (by rfl) (by rfl)

/-- Claim C2: For every existing task that `execute_task` runs to completion
without an exception, the created Execution record ends with
`status = "completed"`, a non-null result, and `duration_seconds` set; and
the Task's status becomes `"pending"` if `is_recurring` is true, and
`"completed"` if `is_recurring` is false. -/
theorem execute_task_success_marks_completed
    (handler : Task → Except String String) (now t0 t1 : Int) (db : ExecDB)
    (tid : Nat) (task : Task) (r : String)
    (hfind : db.tasks.find? (fun t => t.id == tid) = some task)
    (hok : dispatchTaskType handler task = Except.ok r) :
    (execute_task handler now t0 t1 db tid).1.executions
        = db.executions ++
          [{ task_id := tid, status := "completed", result := some r,
             error_message := none, execution_time := now,
             duration_seconds := some (t1 - t0) }] ∧
    (execute_task handler now t0 t1 db tid).1.tasks.find? (fun t => t.id == tid)
        = some { task with status := if task.is_recurring then "pending" else "completed" } ∧
    (execute_task handler now t0 t1 db tid).2
        = Except.ok { status := "completed", result := r, duration_seconds := t1 - t0 } := by
  have h1 := find?_updateFirst (fun t => t.id == tid)
    (fun t => { t with status := "running" }) (fun t => rfl) db.tasks task hfind
  have h2 := find?_updateFirst (fun t => t.id == tid)
    (fun t => { t with status := if task.is_recurring then "pending" else "completed" })
    (fun t => rfl) _ _ h1
  simp only [execute_task, hfind, hok]
  exact ⟨trivial, h2, trivial⟩

def taskOneShot : Task :=
  { task1 with id := 2, is_recurring := false }

def db2 : ExecDB := { tasks := [task1, taskOneShot], executions := [] }

def handlerDone : Task → Except String String := fun _ => Except.ok "done"

/-- Witness for C2 at a concrete recurring task (status returns to
`"pending"`) and a concrete one-shot task (status becomes `"completed"`). -/
theorem execute_task_success_marks_completed_wit :
    ((execute_task handlerDone 5 10 13 db2 1).1.tasks.find? (fun t => t.id == 1)
        = some { task1 with status := "pending" } ∧
     (execute_task handlerDone 5 10 13 db2 1).1.executions
        = [{ task_id := 1, status := "completed", result := some "done",
             error_message := none, execution_time := 5,
             duration_seconds := some 3 }]) ∧
    (execute_task handlerDone 5 10 13 db2 2).1.tasks.find? (fun t => t.id == 2)
        = some { taskOneShot with status := "completed" } := by
  have h1 := execute_task_success_marks_completed handlerDone 5 10 13 db2 1 task1 "done"
    (by rfl) (by rfl)
  have h2 := execute_task_success_marks_completed handlerDone 5 10 13 db2 2 taskOneShot "done"
    (by rfl) (by rfl)
  exact ⟨⟨h1.2.1, h1.1⟩, h2.2.1⟩

/-- Claim C3, code bug: the claim (and the spec) say a run on a missing
`task_id` fails with the task-not-found error (`TaskNotFound` in the
spec's taxonomy) and creates no Execution row.  The source clearly
intends this — line 90 raises `TaskExecutionError("任务不存在: ...")` —
but the except handler slips: `first()` bound `task` to `None`, so
`"task" in locals()` is true and line 170's `task.status = "failed"`
raises `AttributeError` on `None` before any commit, masking the
intended error.  The caller therefore sees an `AttributeError` carrying
no not-found detail instead of the `TaskExecutionError` re-raise of line
173.  The no-Execution-row half of the claim does hold: the database is
returned unchanged. -/
theorem execute_task_missing_task_attribute_error
    (handler : Task → Except String String) (now t0 t1 : Int) (db : ExecDB)
    (tid : Nat)
    (habs : db.tasks.find? (fun t => t.id == tid) = none) :
    execute_task handler now t0 t1 db tid
      = (db, Except.error attributeErrorNoneStatus) := by
  simp only [execute_task, habs]

/-- Witness for C3: id 99 is absent from the concrete database, and the
run surfaces the handler's own `AttributeError` while leaving the
database (in particular its executions list) unchanged. -/
theorem execute_task_missing_task_attribute_error_wit :
    execute_task handlerDone 5 10 13 db1 99
      = (db1, Except.error attributeErrorNoneStatus) :=
  execute_task_missing_task_attribute_error handlerDone 5 10 13 db1 99 (by rfl)

/-- Claim C4, counterexample: The claim states that a task whose `task_type`
is outside the closed mapping runs with the full tool set and does not
fail.  In the source (`executor.py` lines 120-121) the unknown type raises
`TaskExecutionError("未知的任务类型: ...")`; concretely, a task of type
`"custom_task"` fails even though its handler oracle would succeed, and
both the Execution and the Task are marked failed. -/
def taskUnknownType : Task :=
  { task1 with id := 3, task_type := "custom_task", is_recurring := false }

def db3 : ExecDB := { tasks := [taskUnknownType], executions := [] }

theorem execute_task_unknown_type_cex :
    knownTaskType taskUnknownType.task_type = false ∧
    (execute_task handlerDone 5 10 13 db3 3).2
      = Except.error ("任务执行失败: " ++ "未知的任务类型: custom_task") ∧
    (execute_task handlerDone 5 10 13 db3 3).1.tasks.find? (fun t => t.id == 3)
      = some { taskUnknownType with status := "failed" } ∧
    (execute_task handlerDone 5 10 13 db3 3).1.executions
      = [{ task_id := 3, status := "failed", result := none,
           error_message := some "未知的任务类型: custom_task", execution_time := 5,
           duration_seconds := some 3 }] := by
  refine ⟨rfl, rfl, rfl, rfl⟩

/-- Claim C4, amended: When `execute_task` runs a task whose `task_type` is
not in the closed mapping (`research_task`, `analysis_task`,
`report_task`), the run does **not** fall back to the full tool set: it
fails without invoking any handler — `TaskExecutionError("未知的任务类型: ...")`
is raised, the Execution record is persisted with `status = "failed"` and
that message, and the Task's status becomes `"failed"`. -/
theorem execute_task_unknown_type_fails
    (handler : Task → Except String String) (now t0 t1 : Int) (db : ExecDB)
    (tid : Nat) (task : Task)
    (hfind : db.tasks.find? (fun t => t.id == tid) = some task)
    (hunk : knownTaskType task.task_type = false) :
    (execute_task handler now t0 t1 db tid).2
        = Except.error ("任务执行失败: " ++ ("未知的任务类型: " ++ task.task_type)) ∧
    (execute_task handler now t0 t1 db tid).1.executions
        = db.executions ++
          [{ task_id := tid, status := "failed", result := none,
             error_message := some ("未知的任务类型: " ++ task.task_type),
             execution_time := now, duration_seconds := some (t1 - t0) }] ∧
    (execute_task handler now t0 t1 db tid).1.tasks.find? (fun t => t.id == tid)
        = some { task with status := "failed" } := by
  have herr : dispatchTaskType handler task
      = Except.error ("未知的任务类型: " ++ task.task_type) := by
    simp [dispatchTaskType, hunk]
  have h := execute_task_error_case handler now t0 t1 db tid task
    ("未知的任务类型: " ++ task.task_type) hfind herr
  exact ⟨h.2.2, h.1, h.2.1⟩

/-- Witness for the amended C4 at the concrete `"custom_task"` task. -/
theorem execute_task_unknown_type_fails_wit :
    (execute_task handlerDone 5 10 13 db3 3).2
        = Except.error ("任务执行失败: " ++ ("未知的任务类型: " ++ taskUnknownType.task_type)) ∧
    (execute_task handlerDone 5 10 13 db3 3).1.executions
        = [{ task_id := 3, status := "failed", result := none,
             error_message := some ("未知的任务类型: " ++ taskUnknownType.task_type),
             execution_time := 5, duration_seconds := some 3 }] ∧
    (execute_task handlerDone 5 10 13 db3 3).1.tasks.find? (fun t => t.id == 3)
        = some { taskUnknownType with status := "failed" } :=
  execute_task_unknown_type_fails handlerDone 5 10 13 db3 3 taskUnknownType
    (by rfl) (by rfl)

/-- Filtering out jobs with a different id does not affect membership
queries for that other id. -/
theorem any_filter_ne (l : List Job) (jid tid' : String) (h : jid ≠ tid') :
    ((l.filter (fun j' => j'.job_id != jid)).any (fun j' => j'.job_id == tid'))
      = l.any (fun j' => j'.job_id == tid') := by
  induction l with
  | nil => rfl
  | cons x xs ih =>
    by_cases hkeep : x.job_id = jid
    · have hx : (x.job_id == tid') = false := by
        simp [hkeep]
        exact h
      have hk : (x.job_id != jid) = false := by simp [hkeep]
      simp only [List.filter_cons, hk, Bool.false_eq_true, ite_false, List.any_cons, hx,
        Bool.false_or]
      exact ih
    · have hk : (x.job_id != jid) = true := by simp [hkeep]
      simp only [List.filter_cons, hk, ite_true, List.any_cons, ih]

/-- Membership after an upsert: the job set gains exactly the upserted id. -/
theorem hasJob_upsert (s : Sched) (j : Job) (tid : Nat) :
    hasJob (upsertJob s j) tid = (hasJob s tid || (j.job_id == jobIdOf tid)) := by
  unfold hasJob upsertJob
  rw [List.any_append]
  simp only [List.any_cons, List.any_nil, Bool.or_false]
  by_cases hj : j.job_id = jobIdOf tid
  · simp [hj]
  · rw [any_filter_ne s.jobs j.job_id (jobIdOf tid) hj]

/-- Characterization of `add_task` on a stored task's own fields. -/
theorem add_task_eq (cronValid : String → Bool) (s : Sched) (t : Task) :
    add_task cronValid s t.id t.schedule t.cron_expression t.is_recurring
      = if addWouldSucceed cronValid t then
          Except.ok
            (upsertJob s { job_id := jobIdOf t.id, task_id := t.id, trigger := triggerOf t },
             jobIdOf t.id)
        else Except.error ("添加任务到调度器失败: task_id=" ++ toString t.id) := by
  unfold add_task addWouldSucceed triggerOf
  cases hr : t.is_recurring with
  | false => cases t.cron_expression <;> simp
  | true =>
    cases t.cron_expression with
    | none => simp
    | some c =>
      by_cases hc : c.isEmpty <;> by_cases hv : cronValid c <;> simp [hc, hv]

/-- One iteration of the `load_tasks_from_db` loop, characterized: a task
is registered (job upserted, count incremented) exactly when it is not an
expired one-shot and its registration succeeds. -/
theorem load_step_eq (cronValid : String → Bool) (now : Int) (s : Sched) (c : Nat) (t : Task) :
    (if expiredOneShot now t then (s, c)
     else
       match add_task cronValid s t.id t.schedule t.cron_expression t.is_recurring with
       | Except.ok (s', _) => (s', c + 1)
       | Except.error _ => (s, c))
      = if !expiredOneShot now t && addWouldSucceed cronValid t then
          (upsertJob s { job_id := jobIdOf t.id, task_id := t.id, trigger := triggerOf t },
           c + 1)
        else (s, c) := by
  by_cases hexp : expiredOneShot now t
  · simp [hexp]
  · by_cases hadd : addWouldSucceed cronValid t
    · simp [hexp, hadd, add_task_eq]
    · simp [hexp, hadd, add_task_eq]

/-- The pending-tasks loop of `load_tasks_from_db`: its count output. -/
theorem load_loop_count (cronValid : String → Bool) (now : Int) (ls : List Task) :
    ∀ (s : Sched) (c : Nat),
    (ls.foldl
      (fun acc t =>
        if expiredOneShot now t then acc
        else
          match add_task cronValid acc.1 t.id t.schedule t.cron_expression t.is_recurring with
          | Except.ok (s', _) => (s', acc.2 + 1)
          | Except.error _ => acc)
      (s, c)).2
      = c + (ls.filter (fun t => !expiredOneShot now t && addWouldSucceed cronValid t)).length := by
  induction ls with
  | nil => intro s c; rfl
  | cons t ls ih =>
    intro s c
    rw [List.foldl_cons, List.filter_cons]
    simp only [load_step_eq]
    by_cases hp : (!expiredOneShot now t && addWouldSucceed cronValid t) = true
    · rw [if_pos hp, if_pos hp, ih, List.length_cons]
      omega
    · rw [if_neg hp, if_neg hp, ih]

/-- The pending-tasks loop of `load_tasks_from_db`: its job-set output. -/
theorem load_loop_member (cronValid : String → Bool) (now : Int) (ls : List Task) :
    ∀ (s : Sched) (c : Nat) (tid : Nat),
    hasJob
      (ls.foldl
        (fun acc t =>
          if expiredOneShot now t then acc
          else
            match add_task cronValid acc.1 t.id t.schedule t.cron_expression t.is_recurring with
            | Except.ok (s', _) => (s', acc.2 + 1)
            | Except.error _ => acc)
        (s, c)).1 tid
      = (hasJob s tid ||
          ls.any (fun t =>
            (jobIdOf t.id == jobIdOf tid) &&
              (!expiredOneShot now t && addWouldSucceed cronValid t))) := by
  induction ls with
  | nil => intro s c tid; simp
  | cons t ls ih =>
    intro s c tid
    rw [List.foldl_cons, List.any_cons]
    simp only [load_step_eq]
    by_cases hp : (!expiredOneShot now t && addWouldSucceed cronValid t) = true
    · rw [if_pos hp, ih, hasJob_upsert]
      simp [hp, Bool.or_assoc]
    · rw [if_neg hp, ih]
      simp [hp]

/-- Rewriting `any` over a filtered list as one `any` over the original list. -/
theorem any_filter_general (l : List Task) (p q : Task → Bool) :
    (l.filter p).any q = l.any (fun t => p t && q t) := by
  induction l with
  | nil => rfl
  | cons x xs ih =>
    by_cases hp : p x
    · by_cases hq : q x <;> simp [hp, hq, ih]
    · simp [hp, ih]

/-- Pointwise-equal predicates give equal `any` results. -/
theorem any_ext (l : List Task) (p q : Task → Bool) (h : ∀ t, p t = q t) :
    l.any p = l.any q := by
  induction l with
  | nil => rfl
  | cons x xs ih => simp [List.any_cons, h x, ih]

/-- Claim C5, counterexample: The claim states that `load_tasks_from_db`
registers exactly the stored pending, non-deleted tasks apart from expired
one-shot tasks.  A pending recurring task whose cron expression is
rejected by the cron parser (here `"every monday"`, which has 2 fields
instead of the 5 a crontab requires — `cronFieldsValid` models that
necessary field-count check of `CronTrigger.from_crontab`) is also
skipped: `add_task` raises `SchedulerError` and the loop's inner `except`
logs and continues, so the returned count is 0 and no job is registered,
although the task is pending, not deleted, and not an expired one-shot. -/
def countFields : Bool → List Char → Nat
  | _, [] => 0
  | inField, c :: cs =>
    if c = ' ' then countFields false cs
    else (if inField then 0 else 1) + countFields true cs

def cronFieldsValid (s : String) : Bool := countFields false s.data == 5

def taskBadCron : Task :=
  { task1 with
    id := 7, is_recurring := true,
    cron_expression := some "every monday", schedule := 100 }

theorem load_tasks_invalid_cron_cex :
    (taskBadCron.status == "pending" && taskBadCron.deleted_time.isNone
        && !expiredOneShot 0 taskBadCron) = true ∧
    load_tasks_from_db cronFieldsValid 0 { jobs := [] } [taskBadCron]
      = ({ jobs := [] }, 0) := by
  refine ⟨rfl, ?_⟩
  decide

/-- Claim C5, amended: `load_tasks_from_db` registers exactly the stored
tasks whose status is pending and whose `deleted_time` is null, except
that every one-shot task whose fire time is already past at load time is
skipped, and every task whose scheduler registration fails (a recurring
task with a non-empty cron expression rejected by the cron parser) is
logged and skipped as well; the returned count equals the number of tasks
actually registered, and the resulting job set contains a job id exactly
for the previously present jobs plus the registered tasks. -/
theorem load_tasks_from_db_registered_set (cronValid : String → Bool) (now : Int)
    (s : Sched) (tasks : List Task) :
    (load_tasks_from_db cronValid now s tasks).2
        = (tasks.filter (shouldRegister cronValid now)).length ∧
    ∀ tid : Nat,
      hasJob (load_tasks_from_db cronValid now s tasks).1 tid
        = (hasJob s tid ||
            tasks.any (fun t =>
              (jobIdOf t.id == jobIdOf tid) && shouldRegister cronValid now t)) := by
  constructor
  · unfold load_tasks_from_db
    rw [load_loop_count, List.filter_filter, Nat.zero_add]
    congr 1
    exact List.filter_congr (fun t _ => by unfold shouldRegister; rw [Bool.and_comm])
  · intro tid
    unfold load_tasks_from_db
    rw [load_loop_member, any_filter_general]
    congr 1
    exact any_ext tasks _ _ (fun t => by
      unfold shouldRegister
      rw [Bool.and_left_comm])

/-- Claim C6, counterexample: The claim states the invariant that
`cron_expression` is non-null iff `is_recurring`, for every Task produced
by task creation.  But `_validate_parse_result` only logs a warning for a
recurring result without a cron expression (`task_parser.py` 286-288), and
`create_task` copies both fields verbatim, so a parse result with
`recurring = true` and no `cron_expression` passes validation and creates
a Task with `is_recurring = true` and `cron_expression = null`. -/
def isoSample : String → Option Int := fun s =>
  if s == "2024-01-15T09:00:00" then some 1705309200 else none

def parseRecurringNoCron : ParseDict :=
  { name := none, schedule := some "2024-01-15T09:00:00",
    task_type := some "research_task", params := none,
    recurring := some true, cron_expression := none }

theorem create_task_recurring_without_cron_cex :
    _validate_parse_result isoSample parseRecurringNoCron
      = Except.ok { parseRecurringNoCron with params := some [] } ∧
    (createTaskRecord isoSample "任务" "每周一早上8点分析竞争对手"
        { parseRecurringNoCron with params := some [] }).map
        (fun t => (t.is_recurring, t.cron_expression))
      = some (true, none) := by
  exact ⟨rfl, rfl⟩

/-- Claim C6, amended: The Task row produced by task creation copies
`cron_expression` and `is_recurring` verbatim from the parse result
(`cron_expression = parsed.get("cron_expression")`,
`is_recurring = parsed.get("recurring", False)`) and starts with status
`"pending"`; no core operation enforces that `cron_expression` is non-null
iff `is_recurring` — in particular a recurring task may be created with a
null `cron_expression` (validation only logs a warning). -/
theorem create_task_copies_cron_and_recurring
    (isoParse : String → Option Int) (defaultName description : String)
    (p : ParseDict) (t : Task)
    (h : createTaskRecord isoParse defaultName description p = some t) :
    t.cron_expression = p.cron_expression ∧
    t.is_recurring = p.recurring.getD false ∧
    t.status = "pending" := by
  cases hs : p.schedule with
  | none => simp [createTaskRecord, hs] at h
  | some s =>
    cases hi : isoParse (fixZ s) with
    | none => simp [createTaskRecord, hs, hi] at h
    | some sched =>
      cases hty : p.task_type with
      | none => simp [createTaskRecord, hs, hi, hty] at h
      | some ty =>
        simp only [createTaskRecord, hs, hi, hty] at h
        have ht := Option.some_inj.mp h
        subst ht
        exact ⟨rfl, rfl, rfl⟩

/-- Witness for the amended C6 at the concrete recurring-without-cron
parse result. -/
theorem create_task_copies_cron_and_recurring_wit :
    (({ id := 0, name := "任务", description := "每周一早上8点分析竞争对手",
        task_type := "research_task", schedule := 1705309200,
        cron_expression := none, is_recurring := true, status := "pending",
        params := [], deleted_time := none } : Task)).cron_expression
        = ({ parseRecurringNoCron with params := some [] } : ParseDict).cron_expression ∧
    (({ id := 0, name := "任务", description := "每周一早上8点分析竞争对手",
        task_type := "research_task", schedule := 1705309200,
        cron_expression := none, is_recurring := true, status := "pending",
        params := [], deleted_time := none } : Task)).is_recurring
        = ({ parseRecurringNoCron with params := some [] } : ParseDict).recurring.getD false ∧
    (({ id := 0, name := "任务", description := "每周一早上8点分析竞争对手",
        task_type := "research_task", schedule := 1705309200,
        cron_expression := none, is_recurring := true, status := "pending",
        params := [], deleted_time := none } : Task)).status = "pending" :=
  create_task_copies_cron_and_recurring isoSample "任务" "每周一早上8点分析竞争对手"
    { parseRecurringNoCron with params := some [] } _ (by rfl)

/-- Removing every job with the given id leaves no job with that id. -/
theorem any_filter_self (l : List Job) (jid : String) :
    ((l.filter (fun j => j.job_id != jid)).any (fun j => j.job_id == jid)) = false := by
  induction l with
  | nil => rfl
  | cons x xs ih =>
    by_cases hx : x.job_id = jid
    · simp [List.filter_cons, hx, ih]
    · simp [List.filter_cons, hx, ih]

/-- After `remove_task`, no job for the task is in the active job set. -/
theorem hasJob_remove (s : Sched) (tid : Nat) :
    hasJob (remove_task s tid).1 tid = false := by
  unfold remove_task
  by_cases hj : hasJob s tid = true
  · rw [if_pos hj]
    exact any_filter_self s.jobs (jobIdOf tid)
  · rw [if_neg hj]
    simpa using hj

/-- If the first task with the given id is not soft-deleted, `get_task`
returns exactly that task. -/
theorem get_task_of_first (tasks : List Task) (tid : Nat) (t : Task)
    (h : tasks.find? (fun x => x.id == tid) = some t)
    (hd : t.deleted_time = none) : get_task tasks tid = some t := by
  induction tasks with
  | nil => simp [List.find?] at h
  | cons x xs ih =>
    by_cases hx : (x.id == tid) = true
    · rw [@List.find?_cons_of_pos _ (fun x => x.id == tid) x xs hx] at h
      injection h with h
      subst h
      unfold get_task
      rw [List.find?_cons_of_pos]
      simp [hx, hd]
    · rw [@List.find?_cons_of_neg _ (fun x => x.id == tid) x xs hx] at h
      unfold get_task at ih ⊢
      rw [List.find?_cons_of_neg]
      · exact ih h
      · simp [hx]

/-- The row update performed by `delete_task` on the first matching task,
as seen by a subsequent lookup by id. -/
theorem find?_updateFirst_delete (now : Int) (tasks : List Task) (tid : Nat) (t : Task)
    (h : tasks.find? (fun x => x.id == tid) = some t)
    (hd : t.deleted_time = none) :
    (updateFirst (fun x => x.id == tid && x.deleted_time.isNone)
        (fun x => { x with deleted_time := some now, status := "paused" }) tasks).find?
        (fun x => x.id == tid)
      = some { t with deleted_time := some now, status := "paused" } := by
  induction tasks with
  | nil => simp [List.find?] at h
  | cons x xs ih =>
    by_cases hx : (x.id == tid) = true
    · rw [@List.find?_cons_of_pos _ (fun x => x.id == tid) x xs hx] at h
      injection h with h
      subst h
      have hp : (x.id == tid && x.deleted_time.isNone) = true := by simp [hx, hd]
      unfold updateFirst
      rw [if_pos hp]
      rw [List.find?_cons_of_pos]
      exact hx
    · rw [@List.find?_cons_of_neg _ (fun x => x.id == tid) x xs hx] at h
      have hp : ¬((x.id == tid && x.deleted_time.isNone) = true) := by simp [hx]
      unfold updateFirst
      rw [if_neg hp]
      rw [@List.find?_cons_of_neg _ (fun x => x.id == tid) x _ hx]
      exact ih h

/-- Claim C7, counterexample: The claim states delete is status-preserving.
In the source (`task_service.py` line 219) `delete_task` sets
`task.status = "paused"`; concretely, deleting a pending task leaves it
with status `"paused"`, not `"pending"`. -/
def sched7 : Sched :=
  { jobs := [{ job_id := jobIdOf 1, task_id := 1, trigger := Trigger.date 100 }] }

theorem delete_task_changes_status_cex :
    task1.status = "pending" ∧
    ((delete_task 50 [task1] sched7 1).1.find? (fun t => t.id == 1)).map Task.status
      = some "paused" :=
  ⟨rfl, rfl⟩

/-- Claim C7, amended: Soft deletion (`delete_task`) of an existing,
not-yet-deleted task returns `true`, sets the task's `deleted_time`,
removes the task from the Scheduler's active job set — and sets the
task's `status` to `"paused"`; the status field is **not** left
unchanged. -/
theorem delete_task_soft_delete_effects (now : Int) (tasks : List Task)
    (s : Sched) (tid : Nat) (t : Task)
    (h : tasks.find? (fun x => x.id == tid) = some t)
    (hd : t.deleted_time = none) :
    (delete_task now tasks s tid).2.2 = true ∧
    (delete_task now tasks s tid).1.find? (fun x => x.id == tid)
      = some { t with deleted_time := some now, status := "paused" } ∧
    hasJob (delete_task now tasks s tid).2.1 tid = false := by
  have hget := get_task_of_first tasks tid t h hd
  simp only [delete_task, hget]
  exact ⟨trivial, find?_updateFirst_delete now tasks tid t h hd, hasJob_remove s tid⟩

/-- Witness for the amended C7 at the concrete pending task. -/
theorem delete_task_soft_delete_effects_wit :
    (delete_task 50 [task1] sched7 1).2.2 = true ∧
    (delete_task 50 [task1] sched7 1).1.find? (fun x => x.id == 1)
      = some { task1 with deleted_time := some 50, status := "paused" } ∧
    hasJob (delete_task 50 [task1] sched7 1).2.1 1 = false :=
  delete_task_soft_delete_effects 50 [task1] sched7 1 task1 (by rfl) (by rfl)

/-- Claim C8: For every exception raised during a model call or tool dispatch
inside the Decision Loop (that is, whenever the graph run fails),
`TaskAgent.execute` returns immediately with `success = false` and an
error message containing the original exception's text (the message is
`"任务执行失败: "` followed by that text), rather than propagating the
exception to its caller — `execute` is total and returns a result dict. -/
theorem agent_execute_catches_exceptions
    (graphRun : List AgentMessage → Except String (List AgentMessage))
    (task_description : String) (task_params : Option String) (e : String)
    (herr : graphRun [AgentMessage.human (buildUserMessage task_description task_params)]
        = Except.error e) :
    (TaskAgent.execute graphRun task_description task_params).success = false ∧
    (TaskAgent.execute graphRun task_description task_params).error
      = some ("任务执行失败: " ++ e) := by
  simp only [TaskAgent.execute, herr]
  exact ⟨trivial, trivial⟩

def graphBoom : List AgentMessage → Except String (List AgentMessage) :=
  fun _ => Except.error "连接超时"

/-- Witness for C8 at a concrete failing graph run. -/
theorem agent_execute_catches_exceptions_wit :
    (TaskAgent.execute graphBoom "研究AI新闻" (some "topic=AI")).success = false ∧
    (TaskAgent.execute graphBoom "研究AI新闻" (some "topic=AI")).error
      = some ("任务执行失败: " ++ "连接超时") :=
  agent_execute_catches_exceptions graphBoom "研究AI新闻" (some "topic=AI") "连接超时" (by rfl)

/-- Claim C10: Every dictionary returned successfully by `TaskParser.parse`
has a `task_type` in the closed set {research_task, analysis_task,
report_task} — any other model-supplied value having been silently
replaced by `research_task` rather than rejected — contains a `params`
key (defaulted when the model omitted it) and a `recurring` key
(defaulted to false when omitted), and has a schedule string accepted by
the ISO datetime parser; the `cron_expression` is passed through
untouched, so a recurring result may still lack one (only a warning is
logged). -/
theorem parse_validation_guarantees
    (isoParse : String → Option Int) (llm : String → Except String ParseDict)
    (d : String) (r' : ParseDict)
    (h : parse isoParse llm d = Except.ok r') :
    (∃ ty, r'.task_type = some ty ∧ validTaskTypes.contains ty = true) ∧
    r'.params.isSome = true ∧
    r'.recurring.isSome = true ∧
    (∃ s, r'.schedule = some s ∧ (isoParse (fixZ s)).isSome = true) ∧
    (∃ r0, llm (_preprocess_description d) = Except.ok r0 ∧
      r'.cron_expression = r0.cron_expression ∧
      (∀ ty0, r0.task_type = some ty0 → validTaskTypes.contains ty0 = false →
        r'.task_type = some "research_task")) := by
  unfold parse at h
  by_cases hd : (pyStrip d).data.isEmpty
  · rw [if_pos hd] at h
    cases h
  · rw [if_neg hd] at h
    cases hl : llm (_preprocess_description d) with
    | error e => rw [hl] at h; simp at h
    | ok r0 =>
      rw [hl] at h
      dsimp only at h
      cases hv : _validate_parse_result isoParse r0 with
      | error e => rw [hv] at h; simp at h
      | ok rv =>
        rw [hv] at h
        dsimp only at h
        injection h with h
        subst h
        unfold _validate_parse_result at hv
        cases hs : r0.schedule with
        | none => rw [hs] at hv; simp at hv
        | some sch =>
          rw [hs] at hv
          dsimp only at hv
          cases hty : r0.task_type with
          | none => rw [hty] at hv; simp at hv
          | some ty =>
            rw [hty] at hv
            dsimp only at hv
            by_cases hiso : (isoParse (fixZ sch)).isNone = true
            · rw [if_pos hiso] at hv; cases hv
            · rw [if_neg hiso] at hv
              injection hv with hv
              subst hv
              have hsome : (isoParse (fixZ sch)).isSome = true := by
                cases hE : isoParse (fixZ sch)
                · rw [hE] at hiso; simp at hiso
                · rfl
              refine ⟨?_, rfl, rfl, ⟨sch, rfl, hsome⟩, r0, rfl, rfl, ?_⟩
              · by_cases hvt : validTaskTypes.contains ty = true
                · refine ⟨ty, ?_, hvt⟩
                  show some (if validTaskTypes.contains ty = true then ty else "research_task")
                      = some ty
                  rw [if_pos hvt]
                · refine ⟨"research_task", ?_, by decide⟩
                  show some (if validTaskTypes.contains ty = true then ty else "research_task")
                      = some "research_task"
                  rw [if_neg hvt]
              · intro ty0 hty0 hcon
                rw [hty] at hty0
                injection hty0 with hty0
                subst hty0
                have hne : ¬(validTaskTypes.contains ty = true) := fun hcc => by
                  rw [hcon] at hcc
                  exact Bool.false_ne_true hcc
                show some (if validTaskTypes.contains ty = true then ty else "research_task")
                    = some "research_task"
                rw [if_neg hne]

def llmWeird : String → Except String ParseDict := fun _ =>
  Except.ok
    { name := none, schedule := some "2024-01-15T09:00:00",
      task_type := some "weird_task", params := none, recurring := none,
      cron_expression := none }

def parsedWeird : ParseDict :=
  { name := none, schedule := some "2024-01-15T09:00:00",
    task_type := some "research_task", params := some [],
    recurring := some false, cron_expression := none }

/-- Witness for C10: an LLM result with an unknown `task_type` and omitted
`params`/`recurring` keys is normalized by `parse`. -/
theorem parse_validation_guarantees_wit :
    (∃ ty, parsedWeird.task_type = some ty ∧ validTaskTypes.contains ty = true) ∧
    parsedWeird.params.isSome = true ∧
    parsedWeird.recurring.isSome = true ∧
    (∃ s, parsedWeird.schedule = some s ∧ (isoSample (fixZ s)).isSome = true) ∧
    (∃ r0, llmWeird (_preprocess_description "明天上午9点研究AI新闻") = Except.ok r0 ∧
      parsedWeird.cron_expression = r0.cron_expression ∧
      (∀ ty0, r0.task_type = some ty0 → validTaskTypes.contains ty0 = false →
        parsedWeird.task_type = some "research_task")) :=
  parse_validation_guarantees isoSample llmWeird "明天上午9点研究AI新闻" parsedWeird (by rfl)

end TimerOS
